import Mathlib

/-!
Verification development for the opencode-webui bridge gateway.

This file shallowly embeds the pieces of the bridge that the specification
talks about:

* the envelope codec and zod schema registry
  (`packages/shared/src/schemas/bridge.ts`, `packages/shared/src/utils/messages.ts`),
* the subprocess supervisor (`apps/bridge/src/modules/process-manager/process-manager.ts`),
* the protocol dispatcher and session manager
  (`apps/bridge/src/modules/protocol-handler/protocol-handler.ts`),
* the WebSocket route layer (`apps/bridge/src/routes/websocket.ts`).

TypeScript `Map`s are embedded as association lists that mirror JS `Map`
semantics (`set` keeps the position of an existing key and appends new keys;
iteration is in insertion order).  Mutable objects shared between tables
(the `processInfo` records of the process manager) are embedded as an
explicit heap of records addressed by numeric references.
-/

namespace OpencodeWebui

/-! ### Association lists with JS `Map` semantics -/

/-- First value bound to key `k`, mirroring JS `Map.prototype.get`. -/
def lookupA {κ α : Type} [DecidableEq κ] : List (κ × α) → κ → Option α
  | [], _ => none
  | (k', v') :: rest, k => if k' = k then some v' else lookupA rest k

/-- JS `Map.prototype.set`: replace in place when the key exists, else append. -/
def insertA {κ α : Type} [DecidableEq κ] : List (κ × α) → κ → α → List (κ × α)
  | [], k, v => [(k, v)]
  | (k', v') :: rest, k, v =>
    if k' = k then (k, v) :: rest else (k', v') :: insertA rest k v

/-- JS `Map.prototype.delete`. -/
def eraseA {κ α : Type} [DecidableEq κ] : List (κ × α) → κ → List (κ × α)
  | [], _ => []
  | (k', v') :: rest, k =>
    if k' = k then eraseA rest k else (k', v') :: eraseA rest k

theorem lookupA_insertA_self {κ α : Type} [DecidableEq κ]
    (l : List (κ × α)) (k : κ) (v : α) : lookupA (insertA l k v) k = some v := by
  induction l with
  | nil => simp [insertA, lookupA]
  | cons hd tl ih =>
    obtain ⟨k', v'⟩ := hd
    by_cases h : k' = k
    · simp [insertA, lookupA, h]
    · simp [insertA, lookupA, h, ih]

theorem lookupA_insertA_ne {κ α : Type} [DecidableEq κ]
    (l : List (κ × α)) (k k' : κ) (v : α) (h : k ≠ k') :
    lookupA (insertA l k v) k' = lookupA l k' := by
  induction l with
  | nil => simp [insertA, lookupA, h]
  | cons hd tl ih =>
    obtain ⟨k₀, v₀⟩ := hd
    by_cases h₀ : k₀ = k
    · subst h₀
      simp [insertA, lookupA, h]
    · simp [insertA, lookupA, h₀, ih]

theorem lookupA_eraseA_self {κ α : Type} [DecidableEq κ]
    (l : List (κ × α)) (k : κ) : lookupA (eraseA l k) k = none := by
  induction l with
  | nil => simp [eraseA, lookupA]
  | cons hd tl ih =>
    obtain ⟨k', v'⟩ := hd
    by_cases h : k' = k
    · simp [eraseA, h, ih]
    · simp [eraseA, lookupA, h, ih]

theorem lookupA_eraseA_ne {κ α : Type} [DecidableEq κ]
    (l : List (κ × α)) (k k' : κ) (h : k ≠ k') :
    lookupA (eraseA l k) k' = lookupA l k' := by
  induction l with
  | nil => simp [eraseA]
  | cons hd tl ih =>
    obtain ⟨k₀, v₀⟩ := hd
    by_cases h₀ : k₀ = k
    · subst h₀
      simp [eraseA, lookupA, ih, h]
    · simp [eraseA, lookupA, h₀, ih]

/-! ### JSON values and zod schemas (`packages/shared/src/schemas/bridge.ts`)

A zod schema is embedded as a `Sch` value; `z.object` field lists are the
`fnil`/`fcons` chain wrapped in `sobj`.  Zod objects parse in the default
"strip" mode: keys not declared by the schema are ignored (and stripped from
the parsed value), they are NOT an error.  `validate` returns the success
flag of `safeParse`. -/

/-- A JSON value, as produced by `JSON.parse`. -/
inductive Json where
  | null : Json
  | bool (b : Bool) : Json
  | num (n : Int) : Json
  | str (s : String) : Json
  | arr (xs : List Json) : Json
  | obj (kvs : List (String × Json)) : Json
  deriving Repr

/-- Shallow embedding of the zod combinators used by `bridge.ts`.
`fnil`/`fcons` encode a `z.object` field list (wrapped in `sobj`);
`sunion` covers both `z.union` and `z.discriminatedUnion` (equivalent here
because every union in `bridge.ts` discriminates on distinct literals). -/
inductive Sch where
  | sstring : Sch
  | suuid : Sch
  | snumber : Sch
  | stimestamp : Sch
  | sboolean : Sch
  | sunknown : Sch
  | sliteral (s : String) : Sch
  | senum (vals : List String) : Sch
  | sopt (s : Sch) : Sch
  | sobj (fields : Sch) : Sch
  | fnil : Sch
  | fcons (name : String) (s : Sch) (rest : Sch) : Sch
  | sarr (s : Sch) : Sch
  | srecord (s : Sch) : Sch
  | sunion (a b : Sch) : Sch
  deriving Repr

/-- Does the character list start with the given needle? -/
def startsWithL : List Char → List Char → Bool
  | _, [] => true
  | [], _ :: _ => false
  | c :: cs, n :: ns => c == n && startsWithL cs ns

/-- Does the character list contain the needle as a contiguous subsequence?
Models JS `String.prototype.includes` and `.test` of a plain-text regex. -/
def containsL : List Char → List Char → Bool
  | [], needle => needle.isEmpty
  | c :: rest, needle => startsWithL (c :: rest) needle || containsL rest needle

/-- JS `hay.includes(needle)`. -/
def containsSub (hay needle : String) : Bool :=
  containsL hay.toList needle.toList

/-- Lower-case a character list (for case-insensitive regex matching). -/
def lowerL (cs : List Char) : List Char := cs.map Char.toLower

/-- Case-insensitive substring test, modelling `/needle/i.test(hay)` for a
plain-text pattern. -/
def containsCI (hay needle : String) : Bool :=
  containsL (lowerL hay.toList) (lowerL needle.toList)

/-- JS `s.split(sep)` for a single-character separator. -/
def splitOnChar (sep : Char) : List Char → List (List Char)
  | [] => [[]]
  | c :: rest =>
    let r := splitOnChar sep rest
    if c == sep then [] :: r
    else
      match r with
      | [] => [[c]]
      | g :: gs => (c :: g) :: gs

/-- JS `s.trim()`. -/
def trimL (cs : List Char) : List Char :=
  ((cs.dropWhile Char.isWhitespace).reverse.dropWhile Char.isWhitespace).reverse

/-- Model of zod's `z.string().uuid()` format check: five dash-separated
groups of hex digits with lengths 8-4-4-4-12. -/
def isUuid (s : String) : Bool :=
  match splitOnChar '-' s.toList with
  | [a, b, c, d, e] =>
    a.length == 8 && b.length == 4 && c.length == 4 && d.length == 4 &&
      e.length == 12 &&
      (a ++ b ++ c ++ d ++ e).all fun ch =>
        ch.isDigit || ('a' ≤ ch && ch ≤ 'f') || ('A' ≤ ch && ch ≤ 'F')
  | _ => false

/-- First value bound to `k` in a parsed JSON object. -/
def lookupField : List (String × Json) → String → Option Json
  | [], _ => none
  | (k', v') :: rest, k => if k' = k then some v' else lookupField rest k

/-- Whether an absent object key satisfies the schema: `z.unknown()` and any
`.optional()` schema accept `undefined`. -/
def isOpt : Sch → Bool
  | .sopt _ => true
  | .sunknown => true
  | _ => false

/-- Success flag of zod `safeParse` for the embedded combinators.  Objects
parse in strip mode: undeclared keys of the data are ignored. -/
def validate : Sch → Json → Bool
  | .sstring, .str _ => true
  | .sstring, _ => false
  | .suuid, .str s => isUuid s
  | .suuid, _ => false
  | .snumber, .num _ => true
  | .snumber, _ => false
  | .stimestamp, .num n => decide (0 < n)
  | .stimestamp, _ => false
  | .sboolean, .bool _ => true
  | .sboolean, _ => false
  | .sunknown, _ => true
  | .sliteral s, .str t => s == t
  | .sliteral _, _ => false
  | .senum vals, .str t => vals.contains t
  | .senum _, _ => false
  | .sopt s, j => validate s j
  | .sobj fields, .obj kvs => validate fields (.obj kvs)
  | .sobj _, _ => false
  | .fnil, _ => true
  | .fcons k s rest, .obj kvs =>
    (match lookupField kvs k with
     | some v => validate s v
     | none => isOpt s) && validate rest (.obj kvs)
  | .fcons _ _ _, _ => false
  | .sarr s, .arr xs => xs.all fun x => validate s x
  | .sarr _, _ => false
  | .srecord s, .obj kvs => kvs.all fun kv => validate s kv.2
  | .srecord _, _ => false
  | .sunion a b, j => validate a j || validate b j

/-- Build an `fcons` chain from a field list. -/
def fieldsOf : List (String × Sch) → Sch
  | [] => .fnil
  | (k, s) :: rest => .fcons k s (fieldsOf rest)

/-- Keys declared by an `fcons` chain. -/
def fieldNames : Sch → List String
  | .fcons k _ rest => k :: fieldNames rest
  | _ => []

/-- Whether a schema is a well-formed `fcons`/`fnil` field chain. -/
def isFieldChain : Sch → Bool
  | .fnil => true
  | .fcons _ _ rest => isFieldChain rest
  | _ => false

/-! ### The schema registry of `bridge.ts` -/

/-- `ErrorDetails` of `bridge.ts`. -/
def errorDetailsS : Sch :=
  .sobj (fieldsOf
    [("code", .sstring), ("message", .sstring), ("details", .sopt .sunknown)])

/-- `ContentBlock = z.discriminatedUnion('type', [TextContent, ImageContent,
ResourceContent])`. -/
def contentBlockS : Sch :=
  .sunion
    (.sobj (fieldsOf [("type", .sliteral "text"), ("text", .sstring)]))
    (.sunion
      (.sobj (fieldsOf
        [("type", .sliteral "image"),
         ("source", .sobj (fieldsOf
           [("type", .sliteral "base64"), ("mediaType", .sstring),
            ("data", .sstring)]))]))
      (.sobj (fieldsOf
        [("type", .sliteral "resource"), ("uri", .sstring),
         ("mimeType", .sopt .sstring), ("text", .sopt .sstring)])))

/-- Payload of `AcpSessionCreateSuccess` and `AcpSessionLoadSuccess`
(`sessionId`, `availableModels`, `currentModel`, `modes`). -/
def sessionSuccessPayloadS : Sch :=
  .sobj (fieldsOf
    [("sessionId", .sstring), ("availableModels", .sarr .sstring),
     ("currentModel", .sstring),
     ("modes", .sobj (fieldsOf
       [("currentModeId", .sstring),
        ("availableModes", .sarr (.sobj (fieldsOf
          [("id", .sstring), ("name", .sstring)])))]))])

/-- `PromptUpdateKind = z.discriminatedUnion('kind', ...)`. -/
def promptUpdateKindS : Sch :=
  .sunion
    (.sobj (fieldsOf
      [("kind", .sliteral "agent_message_chunk"), ("content", contentBlockS)]))
    (.sunion
      (.sobj (fieldsOf
        [("kind", .sliteral "thought_chunk"),
         ("content", .sobj (fieldsOf [("thought", .sstring)]))]))
      (.sunion
        (.sobj (fieldsOf
          [("kind", .sliteral "tool_call"),
           ("toolCall", .sobj (fieldsOf
             [("toolCallId", .sstring), ("toolName", .sstring),
              ("arguments", .srecord .sunknown),
              ("status", .senum ["pending", "executing"])]))]))
        (.sobj (fieldsOf
          [("kind", .sliteral "tool_call_update"),
           ("toolCall", .sobj (fieldsOf
             [("toolCallId", .sstring),
              ("status", .senum ["completed", "error"]),
              ("output", .sopt .sstring), ("error", .sopt .sstring)]))]))))

/-- Payload of `AcpInitializeRequest`. -/
def initializeRequestPayloadS : Sch :=
  .sobj (fieldsOf
    [("protocolVersion", .snumber),
     ("clientInfo", .sobj (fieldsOf
       [("name", .sstring), ("version", .sstring)])),
     ("capabilities", .sopt (.sobj (fieldsOf
       [("fileSystem", .sopt (.sobj (fieldsOf
          [("readTextFile", .sboolean), ("writeTextFile", .sboolean)]))),
        ("terminal", .sopt .sboolean),
        ("prompts", .sopt (.sobj (fieldsOf
          [("audio", .sopt .sboolean), ("image", .sopt .sboolean),
           ("embeddedContext", .sopt .sboolean)])))])))])

/-- Payload of `AcpInitializeSuccess`. -/
def initializeSuccessPayloadS : Sch :=
  .sobj (fieldsOf
    [("protocolVersion", .snumber),
     ("agentCapabilities", .sobj (fieldsOf
       [("sessions", .sopt (.sobj (fieldsOf
          [("new", .sopt .sboolean), ("load", .sopt .sboolean)]))),
        ("mcp", .sopt (.sobj (fieldsOf
          [("http", .sopt .sboolean), ("sse", .sopt .sboolean)]))),
        ("prompts", .sopt (.sobj (fieldsOf
          [("audio", .sopt .sboolean), ("image", .sopt .sboolean),
           ("embeddedContext", .sopt .sboolean)])))])),
     ("availableModels", .sarr .sstring),
     ("authenticationMethods", .sopt (.sarr (.sobj (fieldsOf
       [("id", .sstring), ("name", .sstring),
        ("description", .sstring)]))))])

/-- How an envelope schema declares its `payload` and `error` members.
`BridgeMessage` declares `payload: z.unknown().optional()` and
`error: ErrorDetails.optional()`; a concrete schema obtained with `.extend`
replaces a member (making it required unless it is itself `.optional()`),
and `.omit({payload: true})` deletes the member. -/
inductive FieldSpec where
  | absent : FieldSpec
  | optionalF (s : Sch) : FieldSpec
  | requiredF (s : Sch) : FieldSpec
  deriving Repr

/-- The field chain of a `BridgeMessage.extend`-style envelope schema. -/
def envFields (t : String) (pl er : FieldSpec) : Sch :=
  fieldsOf
    ([("id", .suuid), ("type", .sliteral t), ("timestamp", .stimestamp)]
      ++ (match pl with
          | .absent => []
          | .optionalF s => [("payload", .sopt s)]
          | .requiredF s => [("payload", s)])
      ++ (match er with
          | .absent => []
          | .optionalF s => [("error", .sopt s)]
          | .requiredF s => [("error", s)]))

/-- `payload`/`error` member declarations of every schema in the `Schemas`
registry of `bridge.ts` (1st component: payload, 2nd: error).  Every schema
there is `BridgeMessage.extend({type: z.literal(t), ...})`, so the `error`
member is the inherited `ErrorDetails.optional()` except for the error
envelopes, which override it with a required `ErrorDetails`. -/
def schemaSpec (t : String) : Option (FieldSpec × FieldSpec) :=
  let optErr := FieldSpec.optionalF errorDetailsS
  let reqErr := FieldSpec.requiredF errorDetailsS
  match t with
  | "connection:established:success" =>
    some (.requiredF (.sobj (fieldsOf
      [("connectionId", .sstring), ("protocolVersion", .sstring)])), optErr)
  | "connection:heartbeat:request" => some (.absent, optErr)
  | "connection:heartbeat:success" =>
    some (.requiredF (.sobj (fieldsOf [("latency", .snumber)])), optErr)
  | "acp:initialize:request" => some (.requiredF initializeRequestPayloadS, optErr)
  | "acp:initialize:success" => some (.requiredF initializeSuccessPayloadS, optErr)
  | "acp:initialize:error" => some (.optionalF .sunknown, reqErr)
  | "acp:session:create:request" =>
    some (.requiredF (.sobj (fieldsOf
      [("cwd", .sopt .sstring), ("model", .sopt .sstring)])), optErr)
  | "acp:session:create:success" => some (.requiredF sessionSuccessPayloadS, optErr)
  | "acp:session:create:error" => some (.optionalF .sunknown, reqErr)
  | "acp:session:load:request" =>
    some (.requiredF (.sobj (fieldsOf
      [("sessionId", .sstring), ("cwd", .sopt .sstring)])), optErr)
  | "acp:session:load:success" => some (.requiredF sessionSuccessPayloadS, optErr)
  | "acp:session:load:error" => some (.optionalF .sunknown, reqErr)
  | "acp:session:close:request" =>
    some (.requiredF (.sobj (fieldsOf [("sessionId", .sstring)])), optErr)
  | "acp:session:close:success" =>
    some (.requiredF (.sobj (fieldsOf [("sessionId", .sstring)])), optErr)
  | "acp:session:close:error" => some (.optionalF .sunknown, reqErr)
  | "acp:session:error" =>
    some (.requiredF (.sobj (fieldsOf [("sessionId", .sstring)])), reqErr)
  | "acp:prompt:send:request" =>
    some (.requiredF (.sobj (fieldsOf
      [("sessionId", .sstring), ("content", .sarr contentBlockS),
       ("agentMode", .sopt (.senum ["plan", "build"]))])), optErr)
  | "acp:prompt:send:success" =>
    some (.requiredF (.sobj (fieldsOf
      [("requestId", .sstring), ("status", .sliteral "accepted")])), optErr)
  | "acp:prompt:send:error" => some (.optionalF .sunknown, reqErr)
  | "acp:prompt:update" =>
    some (.requiredF (.sobj (fieldsOf
      [("sessionId", .sstring), ("requestId", .sstring),
       ("update", promptUpdateKindS)])), optErr)
  | "acp:prompt:complete" =>
    some (.requiredF (.sobj (fieldsOf
      [("sessionId", .sstring), ("requestId", .sstring),
       ("result", .sobj (fieldsOf
         [("content", .sarr contentBlockS),
          ("stopReason",
            .senum ["end_turn", "tool_use", "cancelled", "error"])]))])), optErr)
  | "acp:prompt:error" => some (.optionalF .sunknown, reqErr)
  | "acp:prompt:cancel:request" =>
    some (.requiredF (.sobj (fieldsOf [("sessionId", .sstring)])), optErr)
  | "acp:prompt:cancel:success" =>
    some (.requiredF (.sobj (fieldsOf [("sessionId", .sstring)])), optErr)
  | "acp:prompt:cancel:error" => some (.optionalF .sunknown, reqErr)
  | "acp:permission:request" =>
    some (.requiredF (.sobj (fieldsOf
      [("sessionId", .sstring), ("requestId", .sstring),
       ("toolCall", .sobj (fieldsOf
         [("toolCallId", .sstring), ("toolName", .sstring),
          ("arguments", .srecord .sunknown)])),
       ("options", .sarr (.sobj (fieldsOf
         [("optionId", .sstring), ("title", .sstring),
          ("description", .sstring)])))])), optErr)
  | "acp:permission:response" =>
    some (.requiredF (.sobj (fieldsOf
      [("sessionId", .sstring), ("requestId", .sstring),
       ("outcome", .sobj (fieldsOf
         [("outcome", .senum ["selected", "cancelled", "timeout"]),
          ("optionId", .sopt .sstring)]))])), optErr)
  | "system:error" => some (.optionalF .sunknown, reqErr)
  | _ => none

/-- The `Schemas` registry: message type to envelope schema. -/
def Schemas (t : String) : Option Sch :=
  (schemaSpec t).map fun pe => .sobj (envFields t pe.1 pe.2)

/-! ### Envelope codec (`packages/shared/src/utils/messages.ts`) -/

/-- `validateMessage(type, data)`: look the type up in the registry and
`safeParse`; an unknown type yields a synthetic failure.  Only the success
flag is modelled. -/
def validateMessage (t : String) (data : Json) : Bool :=
  match Schemas t with
  | none => false
  | some sch => validate sch data

/-- `createMessage(type, payload?)`.  The generated `crypto.randomUUID()`
and `Date.now()` values are passed in explicitly (`freshId`, `now`);
`payload = none` models an `undefined` payload argument.  The function never
sets an `error` member. -/
def createMessage (freshId : String) (now : Int) (t : String)
    (payload : Option Json) : Json :=
  .obj ([("id", .str freshId), ("type", .str t), ("timestamp", .num now)]
    ++ (match payload with
        | some p => [("payload", p)]
        | none => []))

/-- Whether a payload argument is valid for a schema's `payload` member
declaration: a declared schema must accept the value when one is passed,
and an omitted (`undefined`) payload is acceptable exactly when the member
is optional, accepts `undefined`, or is not declared at all. -/
def payloadOk (pl : FieldSpec) (p : Option Json) : Bool :=
  match pl, p with
  | .absent, _ => true
  | .optionalF _, none => true
  | .optionalF s, some v => validate s v
  | .requiredF s, none => isOpt s
  | .requiredF s, some v => validate s v

/-- The `errorType` computation of `createErrorMessage`:
`requestType.includes(':') ? requestType.replace(/:request$/, ':error')
: 'system:error'`. -/
def deriveErrorType (requestType : String) : String :=
  let cs := requestType.toList
  if containsL cs [':'] then
    if startsWithL cs.reverse (":request".toList.reverse) then
      String.mk (cs.take (cs.length - 8) ++ ":error".toList)
    else requestType
  else "system:error"

/-- An error envelope as built by `createErrorMessage`. -/
structure ErrMsg where
  id : String
  mtype : String
  timestamp : Int
  code : String
  message : String
  details : Option String
  deriving DecidableEq, Repr

/-- `createErrorMessage(requestType, code, message, details?)` with the
generated id and timestamp passed in explicitly. -/
def createErrorMessage (freshId : String) (now : Int) (requestType : String)
    (code message : String) (details : Option String) : ErrMsg :=
  { id := freshId, mtype := deriveErrorType requestType, timestamp := now,
    code := code, message := message, details := details }

/-- `VALID_MESSAGE_TYPES` of `messages.ts`. -/
def VALID_MESSAGE_TYPES : List String :=
  ["connection:established:success", "connection:heartbeat:request",
   "connection:heartbeat:success",
   "acp:initialize:request", "acp:initialize:success", "acp:initialize:error",
   "acp:session:create:request", "acp:session:create:success",
   "acp:session:create:error",
   "acp:session:load:request", "acp:session:load:success",
   "acp:session:load:error",
   "acp:session:close:request", "acp:session:close:success",
   "acp:session:close:error",
   "acp:session:error",
   "acp:prompt:send:request", "acp:prompt:send:success",
   "acp:prompt:send:error",
   "acp:prompt:update", "acp:prompt:complete", "acp:prompt:error",
   "acp:prompt:cancel:request", "acp:prompt:cancel:success",
   "acp:prompt:cancel:error",
   "acp:permission:request", "acp:permission:response",
   "system:error"]

/-- `isValidMessageType`. -/
def isValidMessageType (t : String) : Bool :=
  VALID_MESSAGE_TYPES.contains t

/-! ### Subprocess supervisor
(`apps/bridge/src/modules/process-manager/process-manager.ts`)

`OpenCodeProcessManager` keeps two `Map`s keyed by session id: `processes`
(to mutable `OpenCodeProcess` records) and `handlers`.  Because
`migrateProcess` mutates the `sessionId` field of a record that is aliased
from the `processes` table and from the stdout line-reader closure, the
records live in an explicit heap addressed by `Nat` references; the
line-reader closure of `spawnProcess` holds such a reference and reads the
record's current `sessionId` at line-arrival time. -/

/-- `ProcessStatus` of the process manager. -/
inductive PStatus where
  | initializing
  | ready
  | error
  | closed
  deriving DecidableEq, Repr

/-- The mutable part of an `OpenCodeProcess` record. -/
structure ProcInfo where
  sessionId : String
  status : PStatus
  deriving DecidableEq, Repr

/-- Handlers are identified opaquely; `hasStderr` records whether the
registered `ProcessMessageHandler` carries the optional `onStderr` member. -/
structure HandlerInfo where
  tag : Nat
  hasStderr : Bool
  deriving DecidableEq, Repr

/-- State of the `OpenCodeProcessManager` singleton. -/
structure PMState where
  heap : List (Nat × ProcInfo)
  processes : List (String × Nat)
  handlers : List (String × HandlerInfo)
  deriving DecidableEq, Repr

/-- `spawnProcess(sessionId, ...)`: if a non-closed process already exists
for the id, return it unchanged; otherwise create a fresh record (status
`initializing`) at the fresh heap reference and register it.  Returns the
reference of the process handed back to the caller and whether a new
subprocess was spawned. -/
def spawnProcess (st : PMState) (sessionId : String) (freshRef : Nat) :
    Nat × PMState × Bool :=
  let existing :=
    match lookupA st.processes sessionId with
    | some r =>
      match lookupA st.heap r with
      | some pi => if pi.status = .closed then none else some r
      | none => none
    | none => none
  match existing with
  | some r => (r, st, false)
  | none =>
    (freshRef,
     { st with
       heap := insertA st.heap freshRef
         { sessionId := sessionId, status := .initializing },
       processes := insertA st.processes sessionId freshRef }, true)

/-- `registerHandler(sessionId, handler)`. -/
def registerHandler (st : PMState) (sessionId : String) (h : HandlerInfo) :
    PMState :=
  { st with handlers := insertA st.handlers sessionId h }

/-- `migrateProcess(oldSessionId, newSessionId)`: no-op when no process is
registered under the old id; otherwise mutate the record's `sessionId`,
re-key the process table (set new, delete old) and move the handler entry
when one exists. -/
def migrateProcess (st : PMState) (oldId newId : String) : PMState :=
  match lookupA st.processes oldId with
  | none => st
  | some r =>
    let heap' :=
      match lookupA st.heap r with
      | some pi => insertA st.heap r { pi with sessionId := newId }
      | none => st.heap
    let processes' := eraseA (insertA st.processes newId r) oldId
    let handlers' :=
      match lookupA st.handlers oldId with
      | some h => eraseA (insertA st.handlers newId h) oldId
      | none => st.handlers
    { heap := heap', processes := processes', handlers := handlers' }

/-- Where a stdout line arriving on the reader of the process record at
reference `r` is dispatched: the reader reads the record's CURRENT
`sessionId` (`const currentSessionId = processInfo.sessionId`) and
`handleProcessOutput` looks the handler up under that id. -/
def routeLineTarget (st : PMState) (r : Nat) : Option (String × HandlerInfo) :=
  match lookupA st.heap r with
  | none => none
  | some pi =>
    match lookupA st.handlers pi.sessionId with
    | some h => some (pi.sessionId, h)
    | none => none

/-- The migration block of `createSession`
(`protocol-handler.ts` lines 199-223): `migrateProcess(old, new)` followed
by re-registering the notification-facing handler under the NEW id (the
re-registered handler omits `onStderr`). -/
def createSessionMigration (st : PMState) (oldId newId : String)
    (hNew : HandlerInfo) : PMState :=
  registerHandler (migrateProcess st oldId newId) newId hNew

/-! ### Stderr classification and promotion
(`process-manager.ts` stderr listener, `protocol-handler.ts`
`handleProcessStderr`, `websocket.ts` `handleSessionNotification`) -/

/-- The fixed stderr error patterns of the process manager (all are
case-insensitive plain-text regexes). -/
def stderrPatterns : List String :=
  ["Rate limit exceeded", "AI_APICallError", "Unauthorized", "401", "403",
   "Authentication failed", "Invalid API key", "quota exceeded"]

/-- Does a stderr line match any of the error patterns? -/
def matchesErrorPattern (line : String) : Bool :=
  stderrPatterns.any fun p => containsCI line p

/-- The stderr data listener's scan: if the chunk is not blank, the first
line (split on newline) matching a pattern is the reported error line; when
no single line matches but the whole chunk does, the chunk itself is
reported.  `none` means `onStderr` does not fire. -/
def scanStderrChunk (output : String) : Option String :=
  if (trimL output.toList).isEmpty then none
  else
    match (splitOnChar '\n' output.toList).find?
        (fun l => matchesErrorPattern (String.mk l)) with
    | some l => some (String.mk l)
    | none => if matchesErrorPattern output then some output else none

/-- Capture of `/message[=:]([^,\n]+)/i` over a character list: find the
first case-insensitive occurrence of `message` followed by `=` or `:` and
a non-empty run of characters other than `,` and newline. -/
def findApiMessage : List Char → Option (List Char)
  | [] => none
  | c :: rest =>
    if startsWithL (lowerL (c :: rest)) ("message".toList) then
      match (c :: rest).drop 7 with
      | d :: tail =>
        if d == '=' || d == ':' then
          let cap := tail.takeWhile fun x => x ≠ ',' && x ≠ '\n'
          if cap.isEmpty then findApiMessage rest else some cap
        else findApiMessage rest
      | [] => findApiMessage rest
    else findApiMessage rest

/-- The human-readable message chosen by `handleProcessStderr` (all the
`data.includes(...)` tests are case-sensitive). -/
def stderrMessageFor (data : String) : String :=
  if containsSub data "Rate limit exceeded" then
    "Rate limit exceeded. Please try again later."
  else if containsSub data "Unauthorized" || containsSub data "401" then
    "Authentication failed. Please check your API key."
  else if containsSub data "403" then
    "Access denied. Please check your permissions."
  else if containsSub data "Invalid API key" then
    "Invalid API key. Please check your configuration."
  else if containsSub data "quota exceeded" then
    "API quota exceeded. Please check your usage limits."
  else if containsSub data "AI_APICallError" then
    match findApiMessage data.toList with
    | some cap => String.mk (trimL cap)
    | none => "An error occurred while processing your request"
  else "An error occurred while processing your request"

/-! ### Protocol dispatcher / session manager
(`protocol-handler.ts` and `websocket.ts`) -/

/-- `SessionInfo.status`. -/
inductive SStatus where
  | active
  | closed
  deriving DecidableEq, Repr

/-- The parts of `SessionInfo` the verified claims depend on. -/
structure SessionInfo where
  connectionId : String
  userId : String
  status : SStatus
  deriving DecidableEq, Repr

/-- A JSON-RPC notification forwarded from the subprocess to the
WebSocket layer's per-session handler.  `update` stands for a
`session/update` (its body is irrelevant to the claims and not modelled),
`sessionError` for the synthetic `session/error` built by
`handleProcessStderr`, `promptResult` for the synthesized `session/prompt`
notification carrying the final prompt response. -/
inductive Notif where
  | update : Notif
  | sessionError (code message : String) (details : Option String) : Notif
  | promptResult (stopReason : String) : Notif
  | other (method : String) : Notif
  deriving DecidableEq, Repr

/-- `handleProcessStderr(sessionId, data)` builds a synthetic
`session/error` notification with `code: 'API_ERROR'`, the classified
message and the raw data as `details`, and hands it to the session's
notification handler. -/
def handleProcessStderr (data : String) : Notif :=
  .sessionError "API_ERROR" (stderrMessageFor data) (some data)

/-- An entry of the WebSocket layer's `pendingRequests` correlation map. -/
structure WsPending where
  connectionId : String
  requestType : String
  deriving DecidableEq, Repr

/-- An envelope sent to a client, projected to the members the claims
talk about. -/
structure OutMsg where
  mtype : String
  code : Option String := none
  errMessage : Option String := none
  errDetails : Option String := none
  requestId : Option String := none
  sessionIdP : Option String := none
  status : Option String := none
  deriving DecidableEq, Repr

/-- Gateway state visible to the WebSocket dispatcher: the connection
table (ids only), the protocol handler's session table, a status view of
the process manager's process table, and the WebSocket layer's
`pendingRequests` map. -/
structure GState where
  connections : List String
  sessions : List (String × SessionInfo)
  procs : List (String × PStatus)
  pendingWS : List (String × WsPending)
  deriving DecidableEq, Repr

/-- An error envelope reply built with `createErrorMessage(requestType,
code, ...)`, projected to type and code. -/
def mkErr (requestType code : String) : OutMsg :=
  { mtype := deriveErrorType requestType, code := some code }

/-- `ACPProtocolHandler.sendPrompt`: re-checks that the session exists and
is not closed, then writes the fire-and-forget `session/prompt` line via
`processManager.sendMessage` (which throws when the process is absent or
closed; `sendPrompt` catches that into an error result). -/
def sendPrompt (sessions : List (String × SessionInfo))
    (procs : List (String × PStatus)) (sessionId : String) :
    Except String Unit :=
  match lookupA sessions sessionId with
  | none => .error "Session not found"
  | some s =>
    if s.status = .closed then .error "Session is closed"
    else
      match lookupA procs sessionId with
      | some ps =>
        if ps = .closed then
          .error "Process for session not found or closed"
        else .ok ()
      | none => .error "Process for session not found or closed"

/-- The `acp:prompt:send:request` branch of `handleMessage`
(`websocket.ts` lines 282-349) after schema validation: look up the
connection, check session existence and ownership, record the pending
request under the envelope id, forward via `sendPrompt`, and on success
delete the pending entry again before emitting `acp:prompt:send:success`.
Returns the envelopes sent to the requester, the new state, and whether
the prompt was forwarded to the subprocess. -/
def handlePromptSend (st : GState) (connId requestId sessionId : String) :
    List OutMsg × GState × Bool :=
  if st.connections.contains connId then
    match lookupA st.sessions sessionId with
    | none => ([mkErr "acp:prompt:send:request" "SESSION_NOT_FOUND"], st, false)
    | some s =>
      if s.connectionId ≠ connId then
        ([mkErr "acp:prompt:send:request" "UNAUTHORIZED"], st, false)
      else
        let pend1 := insertA st.pendingWS requestId
          { connectionId := connId, requestType := "acp:prompt:send:request" }
        match sendPrompt st.sessions st.procs sessionId with
        | .ok _ =>
          ([{ mtype := "acp:prompt:send:success",
              requestId := some requestId, status := some "accepted" }],
           { st with pendingWS := eraseA pend1 requestId }, true)
        | .error _ =>
          ([mkErr "acp:prompt:send:request" "PROMPT_FAILED"],
           { st with pendingWS := eraseA pend1 requestId }, false)
  else ([], st, false)

/-- The correlation scan of `handleSessionNotification`: the first entry of
`pendingRequests` (in insertion order) whose `connectionId` matches. -/
def correlatedRequestId (pendingWS : List (String × WsPending))
    (connId : String) : Option String :=
  (pendingWS.find? fun kv => kv.2.connectionId = connId).map (·.1)

/-- `handleSessionNotification(connectionId, sessionId, notification)`
(`websocket.ts` lines 557-664): drop if the connection is gone, correlate
against `pendingRequests`, then translate `session/update` to
`acp:prompt:update` (stamping `requestId` with the correlated id or
`'unknown'`), `session/error` to `acp:session:error`, and `session/prompt`
to `acp:prompt:complete` (removing the correlated pending entry). -/
def handleSessionNotification (st : GState) (connId sessionId : String)
    (ntf : Notif) : Option OutMsg × GState :=
  if st.connections.contains connId then
    let corr := correlatedRequestId st.pendingWS connId
    match ntf with
    | .update =>
      (some { mtype := "acp:prompt:update", sessionIdP := some sessionId,
              requestId := some (corr.getD "unknown") }, st)
    | .sessionError c m d =>
      (some { mtype := "acp:session:error", sessionIdP := some sessionId,
              code := some c, errMessage := some m, errDetails := d }, st)
    | .promptResult stopReason =>
      let st' :=
        match corr with
        | some rid => { st with pendingWS := eraseA st.pendingWS rid }
        | none => st
      (some { mtype := "acp:prompt:complete", sessionIdP := some sessionId,
              requestId := some (corr.getD "unknown"),
              status := some
                (if ["end_turn", "tool_use", "cancelled", "error"].contains
                     stopReason
                 then stopReason else "end_turn") }, st')
    | .other _ => (none, st)
  else (none, st)

/-! ### Frame-level validation (`websocket.ts` message listener and the
head of `handleMessage`) -/

/-- What the server does with one incoming WebSocket data frame. -/
inductive FrameAction where
  | reply (mtype code message : String) : FrameAction
  | dispatch (t : String) : FrameAction
  | closeConn (code : Nat) (reason : String) : FrameAction
  deriving DecidableEq, Repr

/-- The upgrade handshake (`websocket.ts` lines 40-75): no token or an
invalid token closes the socket with policy-violation code 1008; otherwise
the connection is registered and `connection:established:success` is sent. -/
def onUpgrade (token : Option String) (tokenValid : Bool) : FrameAction :=
  match token with
  | none => .closeConn 1008 "Authentication required"
  | some _ =>
    if tokenValid then .dispatch "connection:established:success"
    else .closeConn 1008 "Invalid token"

/-- One incoming data frame after the socket is up.  `none` models a frame
whose text `JSON.parse` rejects; `some ty?` models a parsed object whose
`type` member is `ty?`.  Mirrors the `try/catch` around `JSON.parse` and
the two leading checks of `handleMessage`; valid types proceed to the
dispatch switch.  No branch closes the connection. -/
def onSocketData (frame : Option (Option String)) : FrameAction :=
  match frame with
  | none => .reply (deriveErrorType "system:error") "INVALID_MESSAGE"
      "Invalid JSON message"
  | some none => .reply (deriveErrorType "system:error") "INVALID_MESSAGE"
      "Message must have a type field"
  | some (some t) =>
    if isValidMessageType t then .dispatch t
    else .reply (deriveErrorType "system:error") "UNKNOWN_TYPE"
      ("Unknown message type: " ++ t)

/-! ### Session close and the correlator's pending-request table
(`protocol-handler.ts` `closeSession` / `getSessionIdFromRequestId`) -/

/-- State of the `ACPProtocolHandler` singleton relevant to session
close: the session table, the ids of the pending correlator entries (in
insertion order), and the process status view. -/
structure PState where
  sessions : List (String × SessionInfo)
  pendingRPC : List String
  procs : List (String × PStatus)
  deriving DecidableEq, Repr

/-- `getSessionIdFromRequestId(requestId)`: the request id is ignored; the
code iterates the session table and, once per pending-request key, returns
the current session id as soon as its status is `active`.  Net effect: the
first ACTIVE session in table order, provided the pending map is
non-empty; otherwise `undefined`. -/
def getSessionIdFromRequestId (sessions : List (String × SessionInfo))
    (pending : List String) (_requestId : String) : Option String :=
  if pending.isEmpty then none
  else (sessions.find? fun kv => kv.2.status = .active).map (·.1)

/-- Remove the first occurrence of a pending-request id. -/
def erasePending : List String → String → List String
  | [], _ => []
  | x :: rest, k => if x = k then rest else x :: erasePending rest k

/-- The clean-up loop of `closeSession`: for each pending id (with the
session already marked closed), reject it with "Session closed" and delete
it exactly when `getSessionIdFromRequestId` returns this session's id.
Returns the surviving pending ids and the `(id, errorMessage)` rejections
fired. -/
def rejectPendingLoop (sessions : List (String × SessionInfo))
    (sessionId : String) :
    List String → List String → List String × List (String × String)
  | [], pending => (pending, [])
  | rid :: rest, pending =>
    if getSessionIdFromRequestId sessions pending rid = some sessionId then
      let r := rejectPendingLoop sessions sessionId rest (erasePending pending rid)
      (r.1, (rid, "Session closed") :: r.2)
    else rejectPendingLoop sessions sessionId rest pending

/-- `closeSession(sessionId)`: mark the session closed FIRST, then run the
pending-request clean-up loop, kill and reap the process, and delete the
session from the table.  Returns the new state and the rejections fired at
pending correlator entries. -/
def closeSession (st : PState) (sessionId : String) :
    PState × List (String × String) :=
  match lookupA st.sessions sessionId with
  | none => (st, [])
  | some s =>
    let sessions1 := insertA st.sessions sessionId { s with status := .closed }
    let lp := rejectPendingLoop sessions1 sessionId st.pendingRPC st.pendingRPC
    ({ sessions := eraseA sessions1 sessionId, pendingRPC := lp.1,
       procs := eraseA st.procs sessionId }, lp.2)

/-! ## Theorems -/

/-- Helper: zod strip semantics — an object key that no field of the
schema declares never influences validation. -/
theorem validate_ignores_undeclared (fields : Sch) :
    ∀ (k : String) (v : Json) (kvs : List (String × Json)),
      isFieldChain fields = true → (fieldNames fields).contains k = false →
      validate (.sobj fields) (.obj ((k, v) :: kvs))
        = validate (.sobj fields) (.obj kvs) := by
  have main : ∀ (k : String) (v : Json) (kvs : List (String × Json)),
      isFieldChain fields = true → (fieldNames fields).contains k = false →
      validate fields (.obj ((k, v) :: kvs)) = validate fields (.obj kvs) := by
    induction fields with
    | fnil => intro k v kvs _ _; rfl
    | fcons name s rest ihs ihrest =>
      intro k v kvs hchain hnames
      simp only [isFieldChain] at hchain
      simp only [fieldNames, List.contains_cons, Bool.or_eq_false_iff] at hnames
      obtain ⟨hne, hrest⟩ := hnames
      have hne' : k ≠ name := by
        intro h
        rw [h] at hne
        simp at hne
      have hlk : lookupField ((k, v) :: kvs) name = lookupField kvs name := by
        simp only [lookupField]
        rw [if_neg hne']
      simp only [validate, hlk, ihrest k v kvs hchain hrest]
    | sstring => intro _ _ _ h; cases h
    | suuid => intro _ _ _ h; cases h
    | snumber => intro _ _ _ h; cases h
    | stimestamp => intro _ _ _ h; cases h
    | sboolean => intro _ _ _ h; cases h
    | sunknown => intro _ _ _ h; cases h
    | sliteral s => intro _ _ _ h; cases h
    | senum vals => intro _ _ _ h; cases h
    | sopt s ih => intro _ _ _ h; cases h
    | sobj f ih => intro _ _ _ h; cases h
    | sarr s ih => intro _ _ _ h; cases h
    | srecord s ih => intro _ _ _ h; cases h
    | sunion a b iha ihb => intro _ _ _ h; cases h
  intro k v kvs hchain hnames
  simpa [validate] using main k v kvs hchain hnames

/-- Claim C1.  The claim says that every emitted `acp:prompt:update`
envelope carries `payload.requestId` equal to the id of the triggering
`acp:prompt:send:request`.  The code violates this: the successful
`acp:prompt:send:request` branch deletes the correlation entry before any
update can arrive, so `handleSessionNotification` finds no pending entry
for the connection and stamps every update with the fallback `'unknown'`.
This theorem evaluates the code on the failing input: connection `c1`
sends prompt request `R1` for its session `S` (accepted, and the success
envelope echoes `requestId R1`), yet the following `session/update` is
emitted with `requestId 'unknown'`. -/
theorem prompt_update_requestId_is_unknown :
    (handlePromptSend
        { connections := ["c1"],
          sessions := [("S",
            { connectionId := "c1", userId := "u1", status := .active })],
          procs := [("S", .ready)], pendingWS := [] } "c1" "R1" "S").1
      = [{ mtype := "acp:prompt:send:success", requestId := some "R1",
           status := some "accepted" }]
    ∧ (handleSessionNotification
        (handlePromptSend
          { connections := ["c1"],
            sessions := [("S",
              { connectionId := "c1", userId := "u1", status := .active })],
            procs := [("S", .ready)], pendingWS := [] } "c1" "R1" "S").2.1
        "c1" "S" .update).1
      = some { mtype := "acp:prompt:update", sessionIdP := some "S",
               requestId := some "unknown" } := by
  decide

/-- Claim C2.  After the session-id migration block of `createSession`
(mutate the record's id, re-key the tables via `migrateProcess`, re-register
the handler under the new id), a stdout line arriving on the subprocess's
line reader is routed to the handler registered under the NEW session id
(the reader reads the mutated id at line-arrival time), and no handler is
registered under the old id any more. -/
theorem migration_reroutes_stdout (st : PMState) (oldId newId : String)
    (r : Nat) (pi : ProcInfo) (hNew : HandlerInfo)
    (hproc : lookupA st.processes oldId = some r)
    (hheap : lookupA st.heap r = some pi)
    (hne : oldId ≠ newId) :
    routeLineTarget (createSessionMigration st oldId newId hNew) r
      = some (newId, hNew)
    ∧ lookupA (createSessionMigration st oldId newId hNew).handlers oldId
      = none := by
  unfold createSessionMigration migrateProcess
  simp only [hproc, hheap]
  constructor
  · unfold routeLineTarget registerHandler
    simp only
    rw [lookupA_insertA_self]
    simp only
    rw [lookupA_insertA_self]
  · unfold registerHandler
    simp only
    rw [lookupA_insertA_ne _ _ _ _ (fun h => hne h.symm)]
    cases hh : lookupA st.handlers oldId with
    | none => simpa using hh
    | some h => simp only [hh]; exact lookupA_eraseA_self _ _

/-- Witness for C2 at a concrete state: one process spawned under the
tentative id `T` with its creation-time handler, then migrated to `S` with
the re-registered handler; the next line is routed to the new handler and
`T` has no handler. -/
theorem migration_reroutes_stdout_witness :
    routeLineTarget (createSessionMigration
        { heap := [(0, { sessionId := "T", status := .ready })],
          processes := [("T", 0)],
          handlers := [("T", { tag := 1, hasStderr := true })] }
        "T" "S" { tag := 2, hasStderr := false }) 0
      = some ("S", { tag := 2, hasStderr := false })
    ∧ lookupA (createSessionMigration
        { heap := [(0, { sessionId := "T", status := .ready })],
          processes := [("T", 0)],
          handlers := [("T", { tag := 1, hasStderr := true })] }
        "T" "S" { tag := 2, hasStderr := false }).handlers "T"
      = none :=
  migration_reroutes_stdout _ "T" "S" 0 _ _ rfl rfl (by decide)

/-- Counterexample to claim C3.  The claim says `validate(t, data)` fails
when `data` carries a field not declared in `t`'s schema.  Zod objects
parse in the default strip mode, so the extra field is silently dropped and
validation SUCCEEDS: a valid `acp:session:close:request` envelope stays
valid after adding the undeclared member `unexpected`. -/
theorem extra_field_accepted :
    validateMessage "acp:session:close:request"
      (Json.obj [("id", .str "123e4567-e89b-42d3-a456-426614174000"),
                 ("type", .str "acp:session:close:request"),
                 ("timestamp", .num 1),
                 ("payload", .obj [("sessionId", .str "S")])]) = true
    ∧ validateMessage "acp:session:close:request"
      (Json.obj [("id", .str "123e4567-e89b-42d3-a456-426614174000"),
                 ("type", .str "acp:session:close:request"),
                 ("timestamp", .num 1),
                 ("payload", .obj [("sessionId", .str "S")]),
                 ("unexpected", .str "x")]) = true := by
  decide

/-- Claim C3 as amended: extra fields are IGNORED (stripped), not
rejected — validation of an object never depends on keys the schema does
not declare; missing required fields do fail (dropping the required
`payload` of `acp:session:close:request` fails); and enumerations are
closed (`agentMode: 'fly'` fails `acp:prompt:send:request`). -/
theorem schema_strip_missing_enum (fields : Sch) (k : String) (v : Json)
    (kvs : List (String × Json)) (hchain : isFieldChain fields = true)
    (hk : (fieldNames fields).contains k = false) :
    validate (.sobj fields) (.obj ((k, v) :: kvs))
      = validate (.sobj fields) (.obj kvs)
    ∧ validateMessage "acp:session:close:request"
      (Json.obj [("id", .str "123e4567-e89b-42d3-a456-426614174000"),
                 ("type", .str "acp:session:close:request"),
                 ("timestamp", .num 1)]) = false
    ∧ validateMessage "acp:prompt:send:request"
      (Json.obj [("id", .str "123e4567-e89b-42d3-a456-426614174000"),
                 ("type", .str "acp:prompt:send:request"),
                 ("timestamp", .num 1),
                 ("payload", .obj
                   [("sessionId", .str "S"),
                    ("content", .arr [.obj [("type", .str "text"),
                                            ("text", .str "hi")]]),
                    ("agentMode", .str "fly")])]) = false :=
  ⟨validate_ignores_undeclared fields k v kvs hchain hk, by decide, by decide⟩

/-- Witness for C3's amended theorem: adding the undeclared key `zzz` to a
close-request envelope leaves validation unchanged. -/
theorem schema_strip_missing_enum_witness :
    validate (.sobj (envFields "acp:session:close:request"
        (.requiredF (.sobj (fieldsOf [("sessionId", .sstring)])))
        (.optionalF errorDetailsS)))
      (.obj (("zzz", .num 3) ::
        [("id", .str "123e4567-e89b-42d3-a456-426614174000"),
         ("type", .str "acp:session:close:request"),
         ("timestamp", .num 1),
         ("payload", .obj [("sessionId", .str "S")])]))
      = validate (.sobj (envFields "acp:session:close:request"
          (.requiredF (.sobj (fieldsOf [("sessionId", .sstring)])))
          (.optionalF errorDetailsS)))
        (.obj [("id", .str "123e4567-e89b-42d3-a456-426614174000"),
               ("type", .str "acp:session:close:request"),
               ("timestamp", .num 1),
               ("payload", .obj [("sessionId", .str "S")])]) :=
  (schema_strip_missing_enum _ "zzz" (.num 3) _ (by decide) (by decide)).1

/-- Claim C4.  The claim (and the spec) say `acp:session:close:request`
rejects exactly the pending correlator entries of the closed session with
"Session closed".  The code cannot do this: `closeSession` marks the
session `closed` BEFORE the clean-up loop, and `getSessionIdFromRequestId`
ignores the request id and only ever returns a still-ACTIVE session, so no
pending entry is ever attributed to the session being closed.  Evaluating
the code at the failing input — a single active session `S` with one
pending correlator entry `rq1` — shows that NO rejection fires and `rq1`
survives the close untouched. -/
theorem close_session_rejects_nothing :
    closeSession
      { sessions := [("S",
          { connectionId := "c1", userId := "u1", status := .active })],
        pendingRPC := ["rq1"], procs := [("S", .ready)] } "S"
      = ({ sessions := [], pendingRPC := ["rq1"], procs := [] }, []) := by
  decide

/-- Claim C5.  For `acp:prompt:send:request`: an unknown session id yields
`acp:prompt:send:error` with code `SESSION_NOT_FOUND`; a session owned by a
different connection yields `acp:prompt:send:error` with code
`UNAUTHORIZED` with the whole gateway state untouched; and the prompt is
forwarded to the subprocess only when the session exists, is not closed and
is owned by the requesting connection. -/
theorem prompt_send_ownership (st : GState) (connId requestId sessionId : String)
    (hconn : st.connections.contains connId = true) :
    (lookupA st.sessions sessionId = none →
      handlePromptSend st connId requestId sessionId
        = ([mkErr "acp:prompt:send:request" "SESSION_NOT_FOUND"], st, false)
      ∧ (mkErr "acp:prompt:send:request" "SESSION_NOT_FOUND").mtype
        = "acp:prompt:send:error")
    ∧ (∀ s, lookupA st.sessions sessionId = some s → s.connectionId ≠ connId →
      handlePromptSend st connId requestId sessionId
        = ([mkErr "acp:prompt:send:request" "UNAUTHORIZED"], st, false)
      ∧ (mkErr "acp:prompt:send:request" "UNAUTHORIZED").mtype
        = "acp:prompt:send:error")
    ∧ ((handlePromptSend st connId requestId sessionId).2.2 = true →
      ∃ s, lookupA st.sessions sessionId = some s ∧ s.connectionId = connId
        ∧ s.status ≠ .closed) := by
  have hmem : connId ∈ st.connections := by simpa using hconn
  refine ⟨?_, ?_, ?_⟩
  · intro hnone
    constructor
    · simp [handlePromptSend, hmem, hnone]
    · decide
  · intro s hs hown
    constructor
    · simp [handlePromptSend, hmem, hs, hown]
    · decide
  · intro hfwd
    unfold handlePromptSend at hfwd
    rw [if_pos hconn] at hfwd
    split at hfwd
    next hs => simp at hfwd
    next s hs =>
      split at hfwd
      next hown => simp at hfwd
      next hown =>
        push_neg at hown
        refine ⟨s, hs, hown, ?_⟩
        split at hfwd
        next u hsp =>
          intro hclosed
          unfold sendPrompt at hsp
          rw [hs] at hsp
          simp [hclosed] at hsp
        next e hsp => simp at hfwd

/-- Witness for C5: connection `cB` tries to prompt on session `S` owned by
connection `cA` and gets the `UNAUTHORIZED` error envelope with the state
unchanged. -/
theorem prompt_send_ownership_witness :
    handlePromptSend
      { connections := ["cA", "cB"],
        sessions := [("S",
          { connectionId := "cA", userId := "u1", status := .active })],
        procs := [("S", .ready)], pendingWS := [] } "cB" "R9" "S"
      = ([mkErr "acp:prompt:send:request" "UNAUTHORIZED"],
         { connections := ["cA", "cB"],
           sessions := [("S",
             { connectionId := "cA", userId := "u1", status := .active })],
           procs := [("S", .ready)], pendingWS := [] }, false) :=
  ((prompt_send_ownership
      { connections := ["cA", "cB"],
        sessions := [("S",
          { connectionId := "cA", userId := "u1", status := .active })],
        procs := [("S", .ready)], pendingWS := [] } "cB" "R9" "S"
      (by decide)).2.1
    { connectionId := "cA", userId := "u1", status := .active }
    rfl (by decide)).1

/-- Counterexample to claim C6.  The claim says the derived error type is
`system:error` for every message type that does not end in `:request`.
`createErrorMessage` only falls back to `system:error` when the type
contains NO colon at all: for `acp:prompt:update` the `:request` suffix
replacement does nothing, and the error envelope keeps the type
`acp:prompt:update` instead of `system:error`. -/
theorem createErrorMessage_nonrequest_type :
    (createErrorMessage "u1" 1 "acp:prompt:update" "E" "m" none).mtype
      = "acp:prompt:update"
    ∧ (createErrorMessage "u1" 1 "acp:prompt:update" "E" "m" none).mtype
      ≠ "system:error" := by
  decide

/-- Claim C6 as amended: for the registry types ending in `:request` the
derived error type is the `x:y:error` sibling; a registry type NOT ending
in `:request` keeps its own type unchanged (the `system:error` fallback
only applies to types without any colon, which never occurs in the
registry). -/
theorem createErrorMessage_type_derivation :
    (deriveErrorType "connection:heartbeat:request"
        = "connection:heartbeat:error"
      ∧ deriveErrorType "acp:initialize:request" = "acp:initialize:error"
      ∧ deriveErrorType "acp:session:create:request"
        = "acp:session:create:error"
      ∧ deriveErrorType "acp:session:load:request" = "acp:session:load:error"
      ∧ deriveErrorType "acp:session:close:request"
        = "acp:session:close:error"
      ∧ deriveErrorType "acp:prompt:send:request" = "acp:prompt:send:error"
      ∧ deriveErrorType "acp:prompt:cancel:request"
        = "acp:prompt:cancel:error")
    ∧ VALID_MESSAGE_TYPES.all
        (fun t => startsWithL t.toList.reverse (":request".toList.reverse)
          || (deriveErrorType t == t)) = true
    ∧ deriveErrorType "nocolon" = "system:error" := by
  decide

/-- Counterexample to claim C7.  The claim says every stderr line matching
the rate-limit error pattern produces the message "Rate limit exceeded.
Please try again later.".  The pattern scan of the process manager is
case-INsensitive (`/Rate limit exceeded/i`) while the message selection of
`handleProcessStderr` uses the case-SENSITIVE
`data.includes('Rate limit exceeded')`: the line
`RATE LIMIT EXCEEDED at request 5` matches the pattern (so `onStderr`
fires) but the client receives the generic message
"An error occurred while processing your request". -/
theorem stderr_case_mismatch :
    scanStderrChunk "RATE LIMIT EXCEEDED at request 5"
      = some "RATE LIMIT EXCEEDED at request 5"
    ∧ (handleSessionNotification
        { connections := ["c1"],
          sessions := [("S",
            { connectionId := "c1", userId := "u1", status := .active })],
          procs := [("S", .ready)], pendingWS := [] } "c1" "S"
        (handleProcessStderr "RATE LIMIT EXCEEDED at request 5")).1
      = some { mtype := "acp:session:error", sessionIdP := some "S",
               code := some "API_ERROR",
               errMessage :=
                 some "An error occurred while processing your request",
               errDetails := some "RATE LIMIT EXCEEDED at request 5" } := by
  decide

/-- Claim C7 as amended: when the reported stderr line contains the
exact-case text `Rate limit exceeded`, the owning client receives
`acp:session:error` whose payload carries the session id and whose error
object has code `API_ERROR`, message "Rate limit exceeded. Please try
again later." and the raw line as `details`; and the process manager's
scanner does report such single-line chunks. -/
theorem stderr_rate_limit_exact_case (st : GState)
    (connId sessionId line : String)
    (hconn : st.connections.contains connId = true)
    (hline : containsSub line "Rate limit exceeded" = true) :
    (handleSessionNotification st connId sessionId
        (handleProcessStderr line)).1
      = some { mtype := "acp:session:error", sessionIdP := some sessionId,
               code := some "API_ERROR",
               errMessage :=
                 some "Rate limit exceeded. Please try again later.",
               errDetails := some line }
    ∧ scanStderrChunk "Rate limit exceeded at request 5"
      = some "Rate limit exceeded at request 5" := by
  constructor
  · have hmem : connId ∈ st.connections := by simpa using hconn
    simp [handleSessionNotification, handleProcessStderr, stderrMessageFor,
      hline, hmem]
  · decide

/-- Witness for C7's amended theorem at a concrete state and line. -/
theorem stderr_rate_limit_exact_case_witness :
    (handleSessionNotification
        { connections := ["c1"],
          sessions := [("S",
            { connectionId := "c1", userId := "u1", status := .active })],
          procs := [("S", .ready)], pendingWS := [] } "c1" "S"
        (handleProcessStderr "Rate limit exceeded at request 5")).1
      = some { mtype := "acp:session:error", sessionIdP := some "S",
               code := some "API_ERROR",
               errMessage :=
                 some "Rate limit exceeded. Please try again later.",
               errDetails := some "Rate limit exceeded at request 5" } :=
  (stderr_rate_limit_exact_case _ "c1" "S" "Rate limit exceeded at request 5"
    (by decide) (by decide)).1

/-- Claim C8.  A frame whose text is not valid JSON is answered with a
`system:error` envelope with code `INVALID_MESSAGE`; a parsed message with
no `type` member is answered with `INVALID_MESSAGE`; a `type` outside the
closed enumeration is answered with `UNKNOWN_TYPE`.  In all three cases the
result is a `reply` — never the `closeConn` action used by the
authentication path — so the connection stays open. -/
theorem frame_validation_errors (t : String)
    (hunknown : isValidMessageType t = false) :
    onSocketData none
      = .reply "system:error" "INVALID_MESSAGE" "Invalid JSON message"
    ∧ onSocketData (some none)
      = .reply "system:error" "INVALID_MESSAGE"
          "Message must have a type field"
    ∧ onSocketData (some (some t))
      = .reply "system:error" "UNKNOWN_TYPE"
          ("Unknown message type: " ++ t) := by
  refine ⟨by decide, by decide, ?_⟩
  simp [onSocketData, hunknown]
  decide

/-- Witness for C8 at the concrete unknown type `totally:bogus`. -/
theorem frame_validation_errors_witness :
    onSocketData (some (some "totally:bogus"))
      = .reply "system:error" "UNKNOWN_TYPE"
          ("Unknown message type: " ++ "totally:bogus") :=
  (frame_validation_errors "totally:bogus" (by decide)).2.2

/-- Counterexample to claim C9.  The claim says
`validate(t, createMessage(t, p)) = ok` for EVERY registry type `t` and
valid payload `p`.  The error envelope schemas override `error` with a
REQUIRED `ErrorDetails`, but `createMessage` never sets an `error` member,
so for `system:error` (whose payload member is the inherited optional
unknown, making the omitted payload valid) validation fails. -/
theorem createMessage_system_error_invalid :
    validateMessage "system:error"
      (createMessage "123e4567-e89b-42d3-a456-426614174000" 1
        "system:error" none) = false := by
  decide

/-- Claim C9 as amended: `validate(t, createMessage(t, p))` succeeds for
every registry type `t` whose schema does NOT require the `error` member
(i.e. every type except the nine error envelopes), for every fresh v4-style
id, positive timestamp, and payload argument valid for `t`'s payload
declaration.  (For the nine error envelope types the required `error`
member is missing and validation fails, as the counterexample shows.) -/
theorem validate_createMessage (t freshId : String) (now : Int)
    (p : Option Json) (pl : FieldSpec)
    (hs : schemaSpec t = some (pl, .optionalF errorDetailsS))
    (hid : isUuid freshId = true) (hts : 0 < now)
    (hp : payloadOk pl p = true) :
    validateMessage t (createMessage freshId now t p) = true := by
  unfold validateMessage Schemas
  rw [hs]
  simp only [Option.map]
  cases pl with
  | absent =>
    cases p with
    | none =>
      simp [createMessage, envFields, fieldsOf, validate, lookupField,
        isOpt, hid, hts]
    | some v =>
      simp [createMessage, envFields, fieldsOf, validate, lookupField,
        isOpt, hid, hts]
  | optionalF s =>
    cases p with
    | none =>
      simp [createMessage, envFields, fieldsOf, validate, lookupField,
        isOpt, hid, hts]
    | some v =>
      simp only [payloadOk] at hp
      simp [createMessage, envFields, fieldsOf, validate, lookupField,
        isOpt, hid, hts, hp]
  | requiredF s =>
    cases p with
    | none =>
      simp only [payloadOk] at hp
      simp [createMessage, envFields, fieldsOf, validate, lookupField,
        hid, hts, hp]
      decide
    | some v =>
      simp only [payloadOk] at hp
      simp [createMessage, envFields, fieldsOf, validate, lookupField,
        isOpt, hid, hts, hp]

/-- Witness for C9's amended theorem: a freshly created
`acp:session:close:request` envelope passes its own schema. -/
theorem validate_createMessage_witness :
    validateMessage "acp:session:close:request"
      (createMessage "123e4567-e89b-42d3-a456-426614174000" 1
        "acp:session:close:request"
        (some (.obj [("sessionId", .str "S")]))) = true :=
  validate_createMessage "acp:session:close:request"
    "123e4567-e89b-42d3-a456-426614174000" 1
    (some (.obj [("sessionId", .str "S")]))
    (.requiredF (.sobj (fieldsOf [("sessionId", .sstring)])))
    rfl (by decide) (by decide) (by decide)

/-- Claim C10.  `spawnProcess` is idempotent per session id: when a process
whose status is not `closed` is already registered for the id, the call
returns that existing process handle, spawns nothing, and leaves the
supervisor state unchanged. -/
theorem spawnProcess_idempotent (st : PMState) (sessionId : String)
    (freshRef r : Nat) (pi : ProcInfo)
    (hproc : lookupA st.processes sessionId = some r)
    (hheap : lookupA st.heap r = some pi)
    (hstatus : pi.status ≠ .closed) :
    spawnProcess st sessionId freshRef = (r, st, false) := by
  simp [spawnProcess, hproc, hheap, hstatus]

/-- Witness for C10: re-spawning session `S` whose process is `ready`
returns the existing reference and changes nothing. -/
theorem spawnProcess_idempotent_witness :
    spawnProcess
      { heap := [(0, { sessionId := "S", status := .ready })],
        processes := [("S", 0)],
        handlers := [("S", { tag := 1, hasStderr := true })] } "S" 7
      = (0,
         { heap := [(0, { sessionId := "S", status := .ready })],
           processes := [("S", 0)],
           handlers := [("S", { tag := 1, hasStderr := true })] }, false) :=
  spawnProcess_idempotent _ "S" 7 0 _ rfl rfl (by decide)

end OpencodeWebui
